import Mathlib

/-!
Shallow embedding of the three-stage Indianapolis trash-pickup resolution
pipeline (src/server.py and src/indy_trash_server.py).

JSON dictionaries are modelled as association lists of string keys to
values; the stage functions are annotated `Optional[Dict[str, Any]]` in the
source, so stage results are `Option Dict`.  Each external service is an
oracle (`Env`) mapping the request made by the code to a response; the
response constructors cover the code paths the source distinguishes
(parsed 2xx body, HTTP status error raised by raise_for_status, and the
request/unexpected exception handlers).  Network calls and log records are
collected as explicit traces.  The 422 retry recursion of
`search_address` in server.py is fuel-indexed: an outer `none` means the
recursion exhausted every bound (it diverged).
-/

/-- A JSON scalar value as the code manipulates it (strings and numbers). -/
inductive JVal
  | s (v : String)
  | n (v : Int)
deriving DecidableEq, Repr

/-- A JSON object: association list from keys to values. -/
abbrev Dict := List (String × JVal)

/-- Python `d.get(k)`: first binding of the key, if any. -/
def dget (d : Dict) (k : String) : Option JVal :=
  (d.find? (fun kv => kv.1 == k)).map Prod.snd

/-- Python `k in d`. -/
def hasKey (d : Dict) (k : String) : Bool :=
  d.any (fun kv => kv.1 == k)

/-- Python `d[k]` at a key guarded to be present (default is dead code). -/
def getV (d : Dict) (k : String) : JVal :=
  (dget d k).getD (JVal.s "")

/-- Python `str(v)`, as an f-string renders a value. -/
def fstr : JVal → String
  | .s v => v
  | .n v => toString v

/-- Python `repr(v)`, as a dict rendered inside an f-string shows values. -/
def reprV : JVal → String
  | .s v => "\x27" ++ v ++ "\x27"
  | .n v => toString v

/-- Join strings with a separator, Python `sep.join`. -/
def joinWith (sep : String) : List String → String
  | [] => ""
  | [t] => t
  | t :: ts => t ++ sep ++ joinWith sep ts

/-- Python `repr(d)` for a dict, as an f-string renders it. -/
def renderDict (d : Dict) : String :=
  "\x7b" ++ joinWith ", " (d.map (fun kv => "\x27" ++ kv.1 ++ "\x27: " ++ reprV kv.2)) ++ "\x7d"

/-- Python truthiness of a value (`if heavy_trash:`). -/
def truthy : JVal → Bool
  | .s v => !v.isEmpty
  | .n v => v != 0

/-- Python `s.split(" ")` over the character list: split on every single
space, keeping empty fragments (`"".split(" ") == [""]`). -/
def splitSpaces : List Char → List String
  | [] => [""]
  | c :: cs =>
    match splitSpaces cs with
    | [] => [""]
    | t :: ts => if c = ' ' then "" :: t :: ts else (⟨c :: t.data⟩ : String) :: ts

/-- Python `" ".join(address_fragment.split(" ")[:-1])` from server.py:
drop the trailing whitespace token.  Note `truncateQuery "a" = ""` and
`truncateQuery "" = ""`. -/
def truncateQuery (s : String) : String :=
  joinWith " " (splitSpaces s.data).dropLast

/-- One network request as the code issues it, with its query parameters. -/
inductive Call
  | searchCall (fragment : String)
  | parcelCall (params : List (String × JVal))
  | trashCall (params : List (String × JVal))
deriving DecidableEq, Repr

/-- The log records the stages emit (exception payloads of the handlers
are not modelled; dict/params interpolations are carried). -/
inductive LogMsg
  | ambiguous (fragment : String)
  | noAddress (fragment : String)
  | retry422
  | searchHttpErr (status : Nat)
  | searchReqErr
  | missingKeys (d : Dict)
  | noParcel (params : List (String × JVal))
  | missingXY (p : Dict)
  | parcelReqErr
  | parcelUnexpected
  | missingCoords (p : Dict)
  | trashMissingPickup
  | trashReqErr
  | trashUnexpected
deriving DecidableEq, Repr

/-- The message text of each log record, mirroring the source f-strings
(the `{e}` exception interpolations are elided). -/
def renderLog : LogMsg → String
  | .ambiguous f => "Ambiguous address found for: " ++ f
  | .noAddress f => "No address found for: " ++ f
  | .retry422 => "retrying without the street type"
  | .searchHttpErr _ => "HTTP error calling search_gis_address API"
  | .searchReqErr => "Error calling search_gis_address API"
  | .missingKeys d =>
      "Missing required keys in address_details for parcel API call: " ++ renderDict d
  | .noParcel ps => "No parcel data found for details: " ++ renderDict ps
  | .missingXY p => "Parcel data missing x/y coordinates: " ++ renderDict p
  | .parcelReqErr => "Error calling parcel API"
  | .parcelUnexpected => "Unexpected error in get_parcel_info"
  | .missingCoords p => "Missing x or y coordinates in parcel_info: " ++ renderDict p
  | .trashMissingPickup => "Trash pickup data missing \x27pickup_day\x27"
  | .trashReqErr => "Error calling trash pickup API"
  | .trashUnexpected => "Unexpected error in get_trash_pickup_details"

/-- Does `sub` occur as a contiguous substring of `hay`? -/
def hasSubstr (hay sub : String) : Bool :=
  (List.range (hay.data.length + 1)).any (fun i => sub.data.isPrefixOf (hay.data.drop i))

/-- Response of the geocoding service to one request: a parsed 2xx body
(`data.get("addresses")`, possibly absent), an HTTP status error raised by
`raise_for_status`, or a request/unexpected exception. -/
inductive SearchResp
  | ok (addresses : Option (List Dict))
  | httpErr (status : Nat)
  | exn
deriving DecidableEq, Repr

/-- Response of the parcel service: a parsed JSON list body, a non-list
body, an HTTP status error, or an exception. -/
inductive ParcelResp
  | ok (body : List Dict)
  | okOther
  | httpErr (status : Nat)
  | exn
deriving DecidableEq, Repr

/-- Response of the trash-pickup schedule service: a parsed JSON object
body, a non-object body, an HTTP status error, or an exception. -/
inductive TrashResp
  | ok (body : Dict)
  | okOther
  | httpErr (status : Nat)
  | exn
deriving DecidableEq, Repr

/-- The three external services, as oracles keyed by the request the code
actually sends. -/
structure Env where
  search : String → SearchResp
  parcel : List (String × JVal) → ParcelResp
  trash : List (String × JVal) → TrashResp

/-- Result, calls and logs of one stage invocation. -/
structure StageOut where
  result : Option Dict
  calls : List Call
  logs : List LogMsg
deriving DecidableEq, Repr

/-- `search_address` of src/server.py, fuel-indexed because of the 422
retry recursion: `none` means every recursion bound was exhausted. -/
def searchAddress (env : Env) : Nat → String → Option (Option Dict × List Call × List LogMsg)
  | 0, _ => none
  | fuel + 1, frag =>
    match env.search frag with
    | .ok (some [a]) => some (some a, [.searchCall frag], [])
    | .ok (some (a :: _ :: _)) => some (some a, [.searchCall frag], [.ambiguous frag])
    | .ok (some []) => some (none, [.searchCall frag], [.noAddress frag])
    | .ok none => some (none, [.searchCall frag], [.noAddress frag])
    | .httpErr code =>
      if code = 422 then
        match searchAddress env fuel (truncateQuery frag) with
        | none => none
        | some (r, cs, ls) => some (r, .searchCall frag :: cs, .retry422 :: ls)
      else some (none, [.searchCall frag], [.searchHttpErr code])
    | .exn => some (none, [.searchCall frag], [.searchReqErr])

/-- `search_address` of src/indy_trash_server.py: same candidate
branching, but no 422 handling at all — `raise_for_status` raises a
requests HTTPError, a RequestException, so every HTTP status error is
caught by the RequestException handler (lines 44-46), logged and
returned as the absence value with no retry.  The function is total (no
recursion), so no fuel is needed. -/
def searchAddressIndy (env : Env) (frag : String) :
    Option Dict × List Call × List LogMsg :=
  match env.search frag with
  | .ok (some [a]) => (some a, [.searchCall frag], [])
  | .ok (some (a :: _ :: _)) => (some a, [.searchCall frag], [.ambiguous frag])
  | .ok (some []) => (none, [.searchCall frag], [.noAddress frag])
  | .ok none => (none, [.searchCall frag], [.noAddress frag])
  | .httpErr _ => (none, [.searchCall frag], [.searchReqErr])
  | .exn => (none, [.searchCall frag], [.searchReqErr])

/-- The seven keys `get_parcel_info` requires of the stage-1 record. -/
def requiredKeys : List String :=
  ["address1", "city", "level", "number", "state", "tag", "zipcode"]

/-- The parcel-service query parameters built from the stage-1 record:
the seven fields, with `tag` renamed to `tag_id`. -/
def parcelParams (d : Dict) : List (String × JVal) :=
  [("address1", getV d "address1"),
   ("city", getV d "city"),
   ("level", getV d "level"),
   ("number", getV d "number"),
   ("state", getV d "state"),
   ("tag_id", getV d "tag"),
   ("zipcode", getV d "zipcode")]

/-- `get_parcel_info` of src/server.py: local required-keys validation,
then the parcel call, then the x/y check on the first record.  The
src/indy_trash_server.py variant has the same results, calls and
branching; it differs only in which handler catches an HTTP status error
(requests HTTPError is a RequestException, so that variant would log the
request-error message rather than the unexpected-error one on the
`httpErr` path — no theorem depends on that log). -/
def getParcelInfo (env : Env) (d : Dict) : StageOut :=
  if requiredKeys.all (fun k => hasKey d k) then
    match env.parcel (parcelParams d) with
    | .ok (p :: _) =>
      if hasKey p "x" && hasKey p "y" then ⟨some p, [.parcelCall (parcelParams d)], []⟩
      else ⟨none, [.parcelCall (parcelParams d)], [.missingXY p]⟩
    | .ok [] => ⟨none, [.parcelCall (parcelParams d)], [.noParcel (parcelParams d)]⟩
    | .okOther => ⟨none, [.parcelCall (parcelParams d)], [.noParcel (parcelParams d)]⟩
    | .httpErr _ => ⟨none, [.parcelCall (parcelParams d)], [.parcelUnexpected]⟩
    | .exn => ⟨none, [.parcelCall (parcelParams d)], [.parcelReqErr]⟩
  else ⟨none, [], [.missingKeys d]⟩

/-- The schedule-service query parameters of src/server.py: the coordinate
pair only. -/
def trashParams (p : Dict) : List (String × JVal) :=
  [("x", getV p "x"), ("y", getV p "y")]

/-- `get_trash_pickup_details` of src/server.py: local coordinate
validation, then the schedule call, then the pickup_day check. -/
def getTrashPickupDetails (env : Env) (p : Dict) : StageOut :=
  if hasKey p "x" && hasKey p "y" then
    match env.trash (trashParams p) with
    | .ok d =>
      if !d.isEmpty && hasKey d "pickup_day" then ⟨some d, [.trashCall (trashParams p)], []⟩
      else ⟨none, [.trashCall (trashParams p)], [.trashMissingPickup]⟩
    | .okOther => ⟨none, [.trashCall (trashParams p)], [.trashMissingPickup]⟩
    | .httpErr _ => ⟨none, [.trashCall (trashParams p)], [.trashUnexpected]⟩
    | .exn => ⟨none, [.trashCall (trashParams p)], [.trashReqErr]⟩
  else ⟨none, [], [.missingCoords p]⟩

/-- The static `WORKFLOW_ID` of src/indy_trash_server.py. -/
def workflowId : String := "c2fdbada-0999-4a55-ad3e-8552b717c1da"

/-- The schedule-service query parameters of src/indy_trash_server.py:
the fixed `__workflow_id` plus the coordinate pair. -/
def trashParamsIndy (p : Dict) : List (String × JVal) :=
  [("__workflow_id", JVal.s workflowId), ("x", getV p "x"), ("y", getV p "y")]

/-- `get_trash_pickup_details` of src/indy_trash_server.py: same logic as
the server.py variant but the request carries `__workflow_id` as well. -/
def getTrashPickupDetailsIndy (env : Env) (p : Dict) : StageOut :=
  if hasKey p "x" && hasKey p "y" then
    match env.trash (trashParamsIndy p) with
    | .ok d =>
      if !d.isEmpty && hasKey d "pickup_day" then ⟨some d, [.trashCall (trashParamsIndy p)], []⟩
      else ⟨none, [.trashCall (trashParamsIndy p)], [.trashMissingPickup]⟩
    | .okOther => ⟨none, [.trashCall (trashParamsIndy p)], [.trashMissingPickup]⟩
    | .httpErr _ => ⟨none, [.trashCall (trashParamsIndy p)], [.trashReqErr]⟩
    | .exn => ⟨none, [.trashCall (trashParamsIndy p)], [.trashUnexpected]⟩
  else ⟨none, [], [.missingCoords p]⟩

/-- The stage-1 failure sentence of the orchestrator. -/
def msgAddr : String :=
  "Sorry, I couldn\x27t validate that address. Please provide a valid Indianapolis address."

/-- The stage-2 failure sentence of the orchestrator. -/
def msgParcel : String :=
  "Sorry, I couldn\x27t retrieve parcel information for that address."

/-- The stage-3 failure sentence of the orchestrator. -/
def msgTrash : String :=
  "Sorry, I couldn\x27t retrieve trash pickup details for that address."

/-- Step 4 of the orchestrator: compose the final message from the
schedule record (`pickup_day` with default, optional truthy
`heavy_trash_pickup`). -/
def formatResponse (t : Dict) : String :=
  let day := (dget t "pickup_day").getD (JVal.s "Not specified")
  let heavy := (dget t "heavy_trash_pickup").getD (JVal.s "")
  let base := "Your regular trash pickup day is " ++ fstr day ++ "."
  if truthy heavy then base ++ " Heavy trash pickup: " ++ fstr heavy ++ "."
  else base

/-- Output, calls and logs of one orchestrator run. -/
structure PipeOut where
  output : String
  calls : List Call
  logs : List LogMsg
deriving DecidableEq, Repr

/-- `get_indy_trash_day` of src/server.py.  The Python `if not r:` guards
are falsy checks: they fail a stage on `None` and also on an empty dict.
`none` propagates stage-1 fuel exhaustion. -/
def get_indy_trash_day (env : Env) (fuel : Nat) (address : String) : Option PipeOut :=
  match searchAddress env fuel address with
  | none => none
  | some (r1, cs1, ls1) =>
    match r1 with
    | none => some ⟨msgAddr, cs1, ls1⟩
    | some ad =>
      if ad.isEmpty then some ⟨msgAddr, cs1, ls1⟩
      else
        match (getParcelInfo env ad).result with
        | none => some ⟨msgParcel, cs1 ++ (getParcelInfo env ad).calls,
            ls1 ++ (getParcelInfo env ad).logs⟩
        | some p =>
          if p.isEmpty then some ⟨msgParcel, cs1 ++ (getParcelInfo env ad).calls,
              ls1 ++ (getParcelInfo env ad).logs⟩
          else
            match (getTrashPickupDetails env p).result with
            | none => some ⟨msgTrash,
                cs1 ++ (getParcelInfo env ad).calls ++ (getTrashPickupDetails env p).calls,
                ls1 ++ (getParcelInfo env ad).logs ++ (getTrashPickupDetails env p).logs⟩
            | some t =>
              if t.isEmpty then some ⟨msgTrash,
                  cs1 ++ (getParcelInfo env ad).calls ++ (getTrashPickupDetails env p).calls,
                  ls1 ++ (getParcelInfo env ad).logs ++ (getTrashPickupDetails env p).logs⟩
              else some ⟨formatResponse t,
                  cs1 ++ (getParcelInfo env ad).calls ++ (getTrashPickupDetails env p).calls,
                  ls1 ++ (getParcelInfo env ad).logs ++ (getTrashPickupDetails env p).logs⟩

/-- An environment where every service fails with an exception. -/
def envExn : Env := ⟨fun _ => .exn, fun _ => .exn, fun _ => .exn⟩

/-- An environment where the geocoding service always answers HTTP 422. -/
def pers422 : Env := ⟨fun _ => .httpErr 422, fun _ => .exn, fun _ => .exn⟩

/-- An environment that answers the single-token query with 422 and the
empty-string query with one candidate. -/
def env422a : Env :=
  ⟨fun f => if f = "a" then .httpErr 422 else .ok (some [[("k", JVal.s "v")]]),
   fun _ => .exn, fun _ => .exn⟩

/-- A stage-2 input missing every required key but `address1`. -/
def d8 : Dict := [("address1", JVal.s "1")]

/-- A parcel record carrying only the coordinate pair. -/
def p9 : Dict := [("x", JVal.n 1), ("y", JVal.n 2)]

/-- A geocode candidate carrying the seven required fields. -/
def cand3 : Dict :=
  [("address1", JVal.s "MAIN ST"), ("city", JVal.s "INDIANAPOLIS"),
   ("level", JVal.s ""), ("number", JVal.s "1234"), ("state", JVal.s "IN"),
   ("tag", JVal.s "T1"), ("zipcode", JVal.s "46204")]

/-- A parcel record with concrete coordinates. -/
def parcel3 : Dict := [("x", JVal.n 10), ("y", JVal.n 20)]

/-- A schedule record with a pickup day and a non-empty heavy-trash field. -/
def sched3 : Dict :=
  [("pickup_day", JVal.s "Tuesday"), ("heavy_trash_pickup", JVal.s "3rd Wednesday")]

/-- An all-success environment realizing the end-to-end scenario. -/
def env3 : Env :=
  ⟨fun _ => .ok (some [cand3]), fun _ => .ok [parcel3], fun _ => .ok sched3⟩

/-- An environment whose geocoding service returns an empty candidate list. -/
def envEmpty : Env := ⟨fun _ => .ok (some []), fun _ => .exn, fun _ => .exn⟩

/-- An environment whose geocoding service returns two candidates. -/
def envMulti : Env :=
  ⟨fun _ => .ok (some [cand3, d8]), fun _ => .exn, fun _ => .exn⟩

example : truncateQuery "1234 Main Street" = "1234 Main" := by decide
example : truncateQuery "a" = "" := by decide
example : truncateQuery "" = "" := by decide
example : splitSpaces "a  b".data = ["a", "", "b"] := by decide

/-- Every call `search_address` records is a geocoding call: the stage
never contacts the parcel or schedule service. -/
lemma searchCalls_only (env : Env) :
    ∀ (fuel : Nat) (frag : String) (r : Option Dict) (cs : List Call) (ls : List LogMsg),
      searchAddress env fuel frag = some (r, cs, ls) →
      ∀ c ∈ cs, ∃ f, c = Call.searchCall f := by
  intro fuel
  induction fuel with
  | zero => intro frag r cs ls h; simp [searchAddress] at h
  | succ n ih =>
    intro frag r cs ls h
    simp only [searchAddress] at h
    split at h
    · simp only [Option.some.injEq, Prod.mk.injEq] at h
      obtain ⟨-, h2, -⟩ := h
      subst h2
      intro c hc
      simp only [List.mem_singleton] at hc
      exact ⟨_, hc⟩
    · simp only [Option.some.injEq, Prod.mk.injEq] at h
      obtain ⟨-, h2, -⟩ := h
      subst h2
      intro c hc
      simp only [List.mem_singleton] at hc
      exact ⟨_, hc⟩
    · simp only [Option.some.injEq, Prod.mk.injEq] at h
      obtain ⟨-, h2, -⟩ := h
      subst h2
      intro c hc
      simp only [List.mem_singleton] at hc
      exact ⟨_, hc⟩
    · simp only [Option.some.injEq, Prod.mk.injEq] at h
      obtain ⟨-, h2, -⟩ := h
      subst h2
      intro c hc
      simp only [List.mem_singleton] at hc
      exact ⟨_, hc⟩
    · split at h
      · split at h
        · exact absurd h (by simp)
        · next r2 cs2 ls2 heq =>
            simp only [Option.some.injEq, Prod.mk.injEq] at h
            obtain ⟨-, h2, -⟩ := h
            subst h2
            intro c hc
            rcases List.mem_cons.mp hc with rfl | hc2
            · exact ⟨_, rfl⟩
            · exact ih (truncateQuery frag) r2 cs2 ls2 heq c hc2
      · simp only [Option.some.injEq, Prod.mk.injEq] at h
        obtain ⟨-, h2, -⟩ := h
        subst h2
        intro c hc
        simp only [List.mem_singleton] at hc
        exact ⟨_, hc⟩
    · simp only [Option.some.injEq, Prod.mk.injEq] at h
      obtain ⟨-, h2, -⟩ := h
      subst h2
      intro c hc
      simp only [List.mem_singleton] at hc
      exact ⟨_, hc⟩

/-- `get_parcel_info` either fails locally with no call or issues exactly
one parcel call carrying `parcelParams`. -/
lemma parcelCalls_shape (env : Env) (d : Dict) :
    (getParcelInfo env d).calls = [] ∨
    (getParcelInfo env d).calls = [Call.parcelCall (parcelParams d)] := by
  unfold getParcelInfo
  split
  · split
    · split <;> simp
    · simp
    · simp
    · simp
    · simp
  · simp

/-- A record `get_parcel_info` returns carries both coordinate keys. -/
lemma parcelResult_keys (env : Env) (d p : Dict)
    (h : (getParcelInfo env d).result = some p) :
    hasKey p "x" = true ∧ hasKey p "y" = true := by
  unfold getParcelInfo at h
  split at h
  · split at h
    · split at h
      · next hcond =>
          simp only [Option.some.injEq] at h
          subst h
          exact Bool.and_eq_true_iff.mp hcond
      · simp at h
    · simp at h
    · simp at h
    · simp at h
    · simp at h
  · simp at h

/-- A dict with a key is not empty. -/
lemma hasKey_not_empty (p : Dict) (k : String) (h : hasKey p k = true) :
    p.isEmpty = false := by
  cases p with
  | nil => simp [hasKey] at h
  | cons a l => rfl

/-- A record `get_trash_pickup_details` returns is non-empty and carries
the pickup-day key. -/
lemma trashResult_keys (env : Env) (p t : Dict)
    (h : (getTrashPickupDetails env p).result = some t) :
    t.isEmpty = false ∧ hasKey t "pickup_day" = true := by
  unfold getTrashPickupDetails at h
  split at h
  · split at h
    · split at h
      · next hcond =>
          simp only [Option.some.injEq] at h
          subst h
          simp at hcond ⊢
          exact hcond
      · simp at h
    · simp at h
    · simp at h
    · simp at h
  · simp at h

/-- Claim C4: for every input where the geocoding service returns zero
candidates, the pipeline returns exactly the fixed address-validation
failure sentence, issuing only the one geocoding call — neither the
parcel service nor the schedule service is contacted. -/
theorem c4_zero_candidates (env : Env) (fuel : Nat) (addr : String)
    (h : env.search addr = .ok (some [])) :
    get_indy_trash_day env (fuel + 1) addr =
      some ⟨msgAddr, [Call.searchCall addr], [LogMsg.noAddress addr]⟩ := by
  simp [get_indy_trash_day, searchAddress, h]

/-- Witness for C4 at a concrete environment and address. -/
theorem c4_witness :
    envEmpty.search "1234 Main Street" = .ok (some []) ∧
    get_indy_trash_day envEmpty 1 "1234 Main Street" =
      some ⟨msgAddr, [Call.searchCall "1234 Main Street"],
        [LogMsg.noAddress "1234 Main Street"]⟩ :=
  ⟨by decide, c4_zero_candidates envEmpty 0 "1234 Main Street" (by decide)⟩

/-- Claim C6: when the geocoding service returns more than one candidate,
Stage 1 succeeds (returning `some`, not the failure value) and
deterministically yields the first candidate in response order. -/
theorem c6_first_candidate (env : Env) (fuel : Nat) (addr : String)
    (c c2 : Dict) (rest : List Dict)
    (h : env.search addr = .ok (some (c :: c2 :: rest))) :
    searchAddress env (fuel + 1) addr =
      some (some c, [Call.searchCall addr], [LogMsg.ambiguous addr]) := by
  simp [searchAddress, h]

/-- Witness for C6 at a concrete two-candidate environment. -/
theorem c6_witness :
    envMulti.search "1234 Main Street" = .ok (some [cand3, d8]) ∧
    searchAddress envMulti 1 "1234 Main Street" =
      some (some cand3, [Call.searchCall "1234 Main Street"],
        [LogMsg.ambiguous "1234 Main Street"]) :=
  ⟨by decide, c6_first_candidate envMulti 0 "1234 Main Street" cand3 d8 [] (by decide)⟩

/-- Counterexample for C7: the query "a" has one whitespace token, so a
recursion depth bounded by the initial token count would settle within
two calls; yet under a persistently-422 geocoding service even a fuel of
3 is exhausted without an outcome — the recursion is not bounded by the
token count. -/
theorem c7_cex : searchAddress pers422 3 "a" = none := by decide

/-- Claim C7 amended: under a persistently unprocessable-input (422)
geocoding service the truncation retry recursion never terminates, for
any query: every fuel bound is exhausted, because single-token and empty
queries retry with the empty string, a fixed point of `truncateQuery`. -/
theorem c7_unbounded (frag : String) (n : Nat) :
    searchAddress pers422 n frag = none := by
  induction n generalizing frag with
  | zero => rfl
  | succ n ih =>
    have hs : pers422.search frag = .httpErr 422 := rfl
    simp [searchAddress, hs, ih]

/-- Counterexample for C2, refuting both halves of the claim on its two
cited sources: with a geocoding service answering the single-token query
"a" with HTTP 422 and the empty-string query with one candidate, the
src/server.py `search_address` does not fail without further retry — it
issues a second call with the empty string and even succeeds; and under
a 422 response to the multi-token query "1234 Main", the
src/indy_trash_server.py `search_address` does not retry with the
trailing token removed — it fails immediately after the single call. -/
theorem c2_cex :
    searchAddress env422a 2 "a" =
      some (some [("k", JVal.s "v")],
        [Call.searchCall "a", Call.searchCall ""], [LogMsg.retry422]) ∧
    pers422.search "1234 Main" = .httpErr 422 ∧
    searchAddressIndy pers422 "1234 Main" =
      (none, [Call.searchCall "1234 Main"], [LogMsg.searchReqErr]) := by
  decide

/-- Claim C2 amended, split by variant: on an HTTP 422 response the
src/server.py Stage 1 always retries with the trailing whitespace token
removed, regardless of how many tokens the query has — a single-token
query retries with the empty string (`truncateQuery` of a one-token
query is `""`) instead of failing without a further request; the
src/indy_trash_server.py Stage 1 never retries on 422 at all — for any
query, multi-token included, the HTTP error is caught by its
RequestException handler and the stage fails immediately after the
single geocoding call. -/
theorem c2_retry_split (env : Env) (frag : String) (fuel : Nat)
    (r2 : Option Dict) (cs2 : List Call) (ls2 : List LogMsg)
    (h422 : env.search frag = .httpErr 422)
    (hrec : searchAddress env fuel (truncateQuery frag) = some (r2, cs2, ls2)) :
    searchAddress env (fuel + 1) frag =
      some (r2, Call.searchCall frag :: cs2, LogMsg.retry422 :: ls2) ∧
    ((splitSpaces frag.data).length = 1 → truncateQuery frag = "") ∧
    searchAddressIndy env frag =
      (none, [Call.searchCall frag], [LogMsg.searchReqErr]) := by
  refine ⟨?_, ?_, ?_⟩
  · simp [searchAddress, h422, hrec]
  · intro h1
    rw [List.length_eq_one] at h1
    obtain ⟨t, ht⟩ := h1
    simp [truncateQuery, ht, joinWith]
  · simp [searchAddressIndy, h422]

/-- Witness for C2 amended, at the single-token query "a" under the
422-then-candidate environment: server.py retries with "" and succeeds
there; indy_trash_server.py fails at once with the single call. -/
theorem c2_witness :
    env422a.search "a" = .httpErr 422 ∧
    searchAddress env422a 1 (truncateQuery "a") =
      some (some [("k", JVal.s "v")], [Call.searchCall ""], []) ∧
    (searchAddress env422a 2 "a" =
      some (some [("k", JVal.s "v")],
        Call.searchCall "a" :: [Call.searchCall ""], LogMsg.retry422 :: []) ∧
    ((splitSpaces "a".data).length = 1 → truncateQuery "a" = "") ∧
    searchAddressIndy env422a "a" =
      (none, [Call.searchCall "a"], [LogMsg.searchReqErr])) :=
  ⟨by decide, by decide,
    c2_retry_split env422a "a" 1 (some [("k", JVal.s "v")])
      [Call.searchCall ""] [] (by decide) (by decide)⟩

/-- Claim C5: when the geocoding service returns exactly one candidate,
Stage 1 returns it, and (when the candidate carries the seven required
fields) Stage 2 issues exactly one parcel request whose parameters are
precisely the candidate's seven fields, unmodified, with the single
rename tag to tag_id — nothing else added, dropped or transformed. -/
theorem c5_param_passthrough (env : Env) (fuel : Nat) (addr : String) (c : Dict)
    (h1 : env.search addr = .ok (some [c]))
    (h7 : requiredKeys.all (fun k => hasKey c k) = true) :
    searchAddress env (fuel + 1) addr = some (some c, [Call.searchCall addr], []) ∧
    (getParcelInfo env c).calls =
      [Call.parcelCall
        [("address1", getV c "address1"),
         ("city", getV c "city"),
         ("level", getV c "level"),
         ("number", getV c "number"),
         ("state", getV c "state"),
         ("tag_id", getV c "tag"),
         ("zipcode", getV c "zipcode")]] := by
  constructor
  · simp [searchAddress, h1]
  · unfold getParcelInfo
    rw [h7]
    simp only [if_true]
    split
    · split <;> rfl
    · rfl
    · rfl
    · rfl
    · rfl

/-- Witness for C5 at the concrete single-candidate environment. -/
theorem c5_witness :
    env3.search "1234 Main Street" = .ok (some [cand3]) ∧
    requiredKeys.all (fun k => hasKey cand3 k) = true ∧
    (searchAddress env3 1 "1234 Main Street" =
      some (some cand3, [Call.searchCall "1234 Main Street"], []) ∧
    (getParcelInfo env3 cand3).calls =
      [Call.parcelCall
        [("address1", getV cand3 "address1"),
         ("city", getV cand3 "city"),
         ("level", getV cand3 "level"),
         ("number", getV cand3 "number"),
         ("state", getV cand3 "state"),
         ("tag_id", getV cand3 "tag"),
         ("zipcode", getV cand3 "zipcode")]]) :=
  ⟨by decide, by decide,
    c5_param_passthrough env3 0 "1234 Main Street" cand3 (by decide) (by decide)⟩

/-- Counterexample for C8: on an input missing six of the seven required
keys, the stage does fail locally, but the error it logs renders the
provided dictionary, and the missing key names (for instance "city" and
"zipcode") appear nowhere in the logged message — the log does not say
which keys were missing. -/
theorem c8_cex :
    getParcelInfo envExn d8 = ⟨none, [], [LogMsg.missingKeys d8]⟩ ∧
    renderLog (LogMsg.missingKeys d8) =
      "Missing required keys in address_details for parcel API call: \x7b\x27address1\x27: \x271\x27\x7d" ∧
    hasSubstr (renderLog (LogMsg.missingKeys d8)) "city" = false ∧
    hasSubstr (renderLog (LogMsg.missingKeys d8)) "zipcode" = false ∧
    hasSubstr (renderLog (LogMsg.missingKeys d8)) "address1" = true := by
  decide

/-- Claim C8 amended: for every Stage 2 input missing at least one of the
seven required keys, `get_parcel_info` returns the absence value
immediately, makes no network call, and emits exactly one error log — the
fixed missing-required-keys message carrying the offending input
dictionary (not an enumeration of the missing keys). -/
theorem c8_local_validation (env : Env) (d : Dict) (k : String)
    (hk : k ∈ requiredKeys) (hmiss : hasKey d k = false) :
    getParcelInfo env d = ⟨none, [], [LogMsg.missingKeys d]⟩ := by
  have hall : requiredKeys.all (fun k => hasKey d k) = false := by
    rw [List.all_eq_false]
    exact ⟨k, hk, by simp [hmiss]⟩
  simp [getParcelInfo, hall]

/-- Witness for C8 amended at the concrete one-key input. -/
theorem c8_witness :
    "city" ∈ requiredKeys ∧
    hasKey d8 "city" = false ∧
    getParcelInfo envExn d8 = ⟨none, [], [LogMsg.missingKeys d8]⟩ :=
  ⟨by decide, by decide, c8_local_validation envExn d8 "city" (by decide) (by decide)⟩

/-- Counterexample for C9: in the src/indy_trash_server.py variant, the
schedule request for a parcel carrying only coordinates has three query
parameters — the fixed `__workflow_id` plus the coordinate pair — not
exactly the two coordinates and nothing else. -/
theorem c9_cex :
    (getTrashPickupDetailsIndy envExn p9).calls =
      [Call.trashCall
        [("__workflow_id", JVal.s workflowId), ("x", JVal.n 1), ("y", JVal.n 2)]] ∧
    (getTrashPickupDetailsIndy envExn p9).calls ≠
      [Call.trashCall [("x", getV p9 "x"), ("y", getV p9 "y")]] := by
  decide

/-- Claim C9 amended: whenever Stage 3 reaches the network, the
src/server.py variant sends exactly the two coordinate parameters (x, y)
and nothing else, while the src/indy_trash_server.py variant sends
exactly three parameters — the fixed `__workflow_id` and the coordinate
pair. -/
theorem c9_params (env : Env) (p : Dict)
    (hx : hasKey p "x" = true) (hy : hasKey p "y" = true) :
    (getTrashPickupDetails env p).calls =
      [Call.trashCall [("x", getV p "x"), ("y", getV p "y")]] ∧
    (getTrashPickupDetailsIndy env p).calls =
      [Call.trashCall
        [("__workflow_id", JVal.s workflowId), ("x", getV p "x"), ("y", getV p "y")]] := by
  constructor
  · unfold getTrashPickupDetails
    rw [hx, hy]
    simp only [Bool.and_self, if_true]
    split
    · split <;> rfl
    · rfl
    · rfl
    · rfl
  · unfold getTrashPickupDetailsIndy
    rw [hx, hy]
    simp only [Bool.and_self, if_true]
    split
    · split <;> rfl
    · rfl
    · rfl
    · rfl

/-- Witness for C9 amended at the concrete coordinate-only parcel. -/
theorem c9_witness :
    hasKey p9 "x" = true ∧ hasKey p9 "y" = true ∧
    ((getTrashPickupDetails envExn p9).calls =
      [Call.trashCall [("x", getV p9 "x"), ("y", getV p9 "y")]] ∧
    (getTrashPickupDetailsIndy envExn p9).calls =
      [Call.trashCall
        [("__workflow_id", JVal.s workflowId), ("x", getV p9 "x"), ("y", getV p9 "y")]]) :=
  ⟨by decide, by decide, c9_params envExn p9 (by decide) (by decide)⟩

/-- Claim C10: every record Stage 2 returns successfully carries both
coordinate keys, so Stage 3, run on such a record under any environment,
never takes its local missing-coordinates branch: it always issues the
schedule call and never logs the missing-coordinates error. -/
theorem c10_coords_present (env env2 : Env) (d p : Dict)
    (h : (getParcelInfo env d).result = some p) :
    hasKey p "x" = true ∧ hasKey p "y" = true ∧
    (getTrashPickupDetails env2 p).calls =
      [Call.trashCall [("x", getV p "x"), ("y", getV p "y")]] ∧
    ∀ q, LogMsg.missingCoords q ∉ (getTrashPickupDetails env2 p).logs := by
  obtain ⟨hx, hy⟩ := parcelResult_keys env d p h
  refine ⟨hx, hy, ?_, ?_⟩
  · unfold getTrashPickupDetails
    rw [hx, hy]
    simp only [Bool.and_self, if_true]
    split
    · split <;> rfl
    · rfl
    · rfl
    · rfl
  · intro q
    unfold getTrashPickupDetails
    rw [hx, hy]
    simp only [Bool.and_self, if_true]
    split
    · split <;> simp
    · simp
    · simp
    · simp

/-- Witness for C10 at the concrete all-success environment. -/
theorem c10_witness :
    (getParcelInfo env3 cand3).result = some parcel3 ∧
    (hasKey parcel3 "x" = true ∧ hasKey parcel3 "y" = true ∧
    (getTrashPickupDetails envExn parcel3).calls =
      [Call.trashCall [("x", getV parcel3 "x"), ("y", getV parcel3 "y")]] ∧
    ∀ q, LogMsg.missingCoords q ∉ (getTrashPickupDetails envExn parcel3).logs) :=
  ⟨by decide, c10_coords_present env3 envExn cand3 parcel3 (by decide)⟩

/-- Claim C3: when all three stages succeed, the orchestrator's output is
the composed message: "Your regular trash pickup day is {day}." with the
" Heavy trash pickup: {heavy}." clause appended exactly when the
heavy-trash field is a non-empty value, and omitted when it is the empty
string or absent. -/
theorem c3_final_message (env : Env) (fuel : Nat) (addr : String)
    (ad p t : Dict) (cs1 : List Call) (ls1 : List LogMsg)
    (h1 : searchAddress env fuel addr = some (some ad, cs1, ls1))
    (hne : ad.isEmpty = false)
    (h2 : (getParcelInfo env ad).result = some p)
    (h3 : (getTrashPickupDetails env p).result = some t) :
    ∃ out : PipeOut, get_indy_trash_day env fuel addr = some out ∧
      out.output = formatResponse t ∧
      (∀ day heavy, dget t "pickup_day" = some (JVal.s day) →
        dget t "heavy_trash_pickup" = some (JVal.s heavy) →
        out.output =
          (if heavy.isEmpty then "Your regular trash pickup day is " ++ day ++ "."
           else "Your regular trash pickup day is " ++ day ++ ". Heavy trash pickup: " ++
             heavy ++ ".")) ∧
      (∀ day, dget t "pickup_day" = some (JVal.s day) →
        dget t "heavy_trash_pickup" = none →
        out.output = "Your regular trash pickup day is " ++ day ++ ".") := by
  obtain ⟨hx, hy⟩ := parcelResult_keys env ad p h2
  have hpne : p.isEmpty = false := hasKey_not_empty p "x" hx
  obtain ⟨htne, -⟩ := trashResult_keys env p t h3
  refine ⟨⟨formatResponse t,
      cs1 ++ (getParcelInfo env ad).calls ++ (getTrashPickupDetails env p).calls,
      ls1 ++ (getParcelInfo env ad).logs ++ (getTrashPickupDetails env p).logs⟩,
    ?_, rfl, ?_, ?_⟩
  · unfold get_indy_trash_day
    rw [h1]
    simp [hne, h2, hpne, h3, htne]
  · intro day heavy hd hh
    show formatResponse t = _
    unfold formatResponse
    rw [hd, hh]
    cases hE : heavy.isEmpty with
    | true => simp [truthy, fstr, hE]
    | false =>
      simp [truthy, fstr, hE]
      simp only [String.append_assoc]
      congr 2
  · intro day hd hh
    show formatResponse t = _
    unfold formatResponse
    rw [hd, hh]
    simp [truthy, fstr, show ("" : String).isEmpty = true from rfl]

/-- A schedule record whose heavy-trash field is the empty string. -/
def schedEmptyHeavy : Dict :=
  [("pickup_day", JVal.s "Tuesday"), ("heavy_trash_pickup", JVal.s "")]

/-- Witness for C3 at the all-success environment, realizing the two
concrete outputs the claim names. -/
theorem c3_witness :
    searchAddress env3 1 "1234 Main Street" =
      some (some cand3, [Call.searchCall "1234 Main Street"], []) ∧
    cand3.isEmpty = false ∧
    (getParcelInfo env3 cand3).result = some parcel3 ∧
    (getTrashPickupDetails env3 parcel3).result = some sched3 ∧
    formatResponse sched3 =
      "Your regular trash pickup day is Tuesday. Heavy trash pickup: 3rd Wednesday." ∧
    formatResponse schedEmptyHeavy = "Your regular trash pickup day is Tuesday." ∧
    (∃ out : PipeOut, get_indy_trash_day env3 1 "1234 Main Street" = some out ∧
      out.output = formatResponse sched3 ∧
      (∀ day heavy, dget sched3 "pickup_day" = some (JVal.s day) →
        dget sched3 "heavy_trash_pickup" = some (JVal.s heavy) →
        out.output =
          (if heavy.isEmpty then "Your regular trash pickup day is " ++ day ++ "."
           else "Your regular trash pickup day is " ++ day ++ ". Heavy trash pickup: " ++
             heavy ++ ".")) ∧
      (∀ day, dget sched3 "pickup_day" = some (JVal.s day) →
        dget sched3 "heavy_trash_pickup" = none →
        out.output = "Your regular trash pickup day is " ++ day ++ ".")) :=
  ⟨by decide, by decide, by decide, by decide, by decide, by decide,
    c3_final_message env3 1 "1234 Main Street" cand3 parcel3 sched3
      [Call.searchCall "1234 Main Street"] [] (by decide) (by decide) (by decide) (by decide)⟩

/-- Claim C1: whenever Stage 1 delivers an outcome, the orchestrator
returns a string (it never propagates an error): the output is one of the
three fixed failure sentences or the composed schedule message, an
absence from Stage 1 maps to the address-validation sentence with no
further stage run, an absence from Stage 2 maps to the parcel sentence
with no schedule call, and an absence from Stage 3 maps to the schedule
sentence. -/
theorem c1_orchestrator (env : Env) (fuel : Nat) (addr : String)
    (r1 : Option Dict) (cs1 : List Call) (ls1 : List LogMsg)
    (h1 : searchAddress env fuel addr = some (r1, cs1, ls1)) :
    ∃ out : PipeOut, get_indy_trash_day env fuel addr = some out ∧
      (out.output = msgAddr ∨ out.output = msgParcel ∨ out.output = msgTrash ∨
        ∃ t : Dict, out.output = formatResponse t) ∧
      (r1 = none → out.output = msgAddr ∧ out.calls = cs1) ∧
      (∀ ad, r1 = some ad → ad.isEmpty = true →
        out.output = msgAddr ∧ out.calls = cs1) ∧
      (∀ ad, r1 = some ad → ad.isEmpty = false →
        (getParcelInfo env ad).result = none →
        out.output = msgParcel ∧ out.calls = cs1 ++ (getParcelInfo env ad).calls ∧
        ∀ qs, Call.trashCall qs ∉ out.calls) ∧
      (∀ ad p, r1 = some ad → ad.isEmpty = false →
        (getParcelInfo env ad).result = some p →
        (getTrashPickupDetails env p).result = none →
        out.output = msgTrash) := by
  rcases r1 with _ | ad
  · refine ⟨⟨msgAddr, cs1, ls1⟩, ?_, Or.inl rfl, fun _ => ⟨rfl, rfl⟩, ?_, ?_, ?_⟩
    · unfold get_indy_trash_day
      rw [h1]
    · intro ad h
      exact absurd h (by simp)
    · intro ad h
      exact absurd h (by simp)
    · intro ad p h
      exact absurd h (by simp)
  · cases had : List.isEmpty ad with
    | true =>
      refine ⟨⟨msgAddr, cs1, ls1⟩, ?_, Or.inl rfl, ?_, ?_, ?_, ?_⟩
      · unfold get_indy_trash_day
        rw [h1]
        simp [had]
      · intro h
        exact absurd h (by simp)
      · intro ad2 hh _
        exact ⟨rfl, rfl⟩
      · intro ad2 hh hf
        injection hh with e
        subst e
        rw [had] at hf
        exact absurd hf (by decide)
      · intro ad2 p hh hf
        injection hh with e
        subst e
        rw [had] at hf
        exact absurd hf (by decide)
    | false =>
      cases h2 : (getParcelInfo env ad).result with
      | none =>
        refine ⟨⟨msgParcel, cs1 ++ (getParcelInfo env ad).calls,
            ls1 ++ (getParcelInfo env ad).logs⟩, ?_, Or.inr (Or.inl rfl), ?_, ?_, ?_, ?_⟩
        · unfold get_indy_trash_day
          rw [h1]
          simp [had, h2]
        · intro h
          exact absurd h (by simp)
        · intro ad2 hh hT
          injection hh with e
          subst e
          rw [had] at hT
          exact absurd hT (by decide)
        · intro ad2 hh hf hpn
          injection hh with e
          subst e
          refine ⟨rfl, rfl, ?_⟩
          intro qs hmem
          rcases List.mem_append.mp hmem with hm | hm
          · obtain ⟨f, hf2⟩ := searchCalls_only env fuel addr _ _ _ h1 _ hm
            simp at hf2
          · rcases parcelCalls_shape env ad with hc | hc
            · rw [hc] at hm
              simp at hm
            · rw [hc] at hm
              simp at hm
        · intro ad2 p hh hf hp2
          injection hh with e
          subst e
          rw [h2] at hp2
          exact absurd hp2 (by simp)
      | some p =>
        have hpq := parcelResult_keys env ad p h2
        have hpne : List.isEmpty p = false := hasKey_not_empty p "x" hpq.1
        cases h3 : (getTrashPickupDetails env p).result with
        | none =>
          refine ⟨⟨msgTrash,
              cs1 ++ (getParcelInfo env ad).calls ++ (getTrashPickupDetails env p).calls,
              ls1 ++ (getParcelInfo env ad).logs ++ (getTrashPickupDetails env p).logs⟩,
            ?_, Or.inr (Or.inr (Or.inl rfl)), ?_, ?_, ?_, ?_⟩
          · unfold get_indy_trash_day
            rw [h1]
            simp [had, h2, hpne, h3]
          · intro h
            exact absurd h (by simp)
          · intro ad2 hh hT
            injection hh with e
            subst e
            rw [had] at hT
            exact absurd hT (by decide)
          · intro ad2 hh hf hpn
            injection hh with e
            subst e
            rw [h2] at hpn
            exact absurd hpn (by simp)
          · intro ad2 p2 hh hf hp2 ht
            exact rfl
        | some t =>
          have htne : List.isEmpty t = false := (trashResult_keys env p t h3).1
          refine ⟨⟨formatResponse t,
              cs1 ++ (getParcelInfo env ad).calls ++ (getTrashPickupDetails env p).calls,
              ls1 ++ (getParcelInfo env ad).logs ++ (getTrashPickupDetails env p).logs⟩,
            ?_, Or.inr (Or.inr (Or.inr ⟨t, rfl⟩)), ?_, ?_, ?_, ?_⟩
          · unfold get_indy_trash_day
            rw [h1]
            simp [had, h2, hpne, h3, htne]
          · intro h
            exact absurd h (by simp)
          · intro ad2 hh hT
            injection hh with e
            subst e
            rw [had] at hT
            exact absurd hT (by decide)
          · intro ad2 hh hf hpn
            injection hh with e
            subst e
            rw [h2] at hpn
            exact absurd hpn (by simp)
          · intro ad2 p2 hh hf hp2 ht
            injection hh with e
            subst e
            rw [h2] at hp2
            injection hp2 with e2
            subst e2
            rw [h3] at ht
            exact absurd ht (by simp)

/-- Witness for C1 at a concrete environment whose geocoding call raises
a request exception (Stage 1 outcome: absence). -/
theorem c1_witness :
    searchAddress envExn 1 "x" =
      some (none, [Call.searchCall "x"], [LogMsg.searchReqErr]) ∧
    (∃ out : PipeOut, get_indy_trash_day envExn 1 "x" = some out ∧
      (out.output = msgAddr ∨ out.output = msgParcel ∨ out.output = msgTrash ∨
        ∃ t : Dict, out.output = formatResponse t) ∧
      ((none : Option Dict) = none →
        out.output = msgAddr ∧ out.calls = [Call.searchCall "x"]) ∧
      (∀ ad, (none : Option Dict) = some ad → ad.isEmpty = true →
        out.output = msgAddr ∧ out.calls = [Call.searchCall "x"]) ∧
      (∀ ad, (none : Option Dict) = some ad → ad.isEmpty = false →
        (getParcelInfo envExn ad).result = none →
        out.output = msgParcel ∧
        out.calls = [Call.searchCall "x"] ++ (getParcelInfo envExn ad).calls ∧
        ∀ qs, Call.trashCall qs ∉ out.calls) ∧
      (∀ ad p, (none : Option Dict) = some ad → ad.isEmpty = false →
        (getParcelInfo envExn ad).result = some p →
        (getTrashPickupDetails envExn p).result = none →
        out.output = msgTrash)) :=
  ⟨by decide,
    c1_orchestrator envExn 1 "x" none [Call.searchCall "x"] [LogMsg.searchReqErr]
      (by decide)⟩
